import Mathlib

/-!
Shallow embedding of the client-side session lifecycle implemented in
`src/frontend/src/contexts/AuthContext.jsx` (the `AuthProvider` component:
`checkAuth`, `fetchUserData`, `logout`, `login`, `register`).

Modelling conventions:
- The observable controller state is the pair of the React `user` state and the
  `localStorage` entry under the key `token` (`State`).
- Each `fetch` outcome is an environment value (`HttpResp`): the transport may
  throw, or a response arrives with its `ok` flag and a body on which
  `response.json()` either succeeds (parsed record) or throws (`none`).
- JavaScript truthiness is explicit: a missing field is `Option.none`
  (JS `undefined`, falsy), the empty string is falsy, any other string truthy.
- `localStorage.setItem` coerces its value to a string; `jsToString` embeds
  that coercion (JS `String(undefined) = "undefined"`, etc.).
- Side effects are recorded in order: navigations (`navigate(...)` targets),
  attempted network requests (endpoint and `Authorization` header), and
  `localStorage.setItem` writes.
- A JS `try { ... } catch { ... }` is embedded by giving every throwing path
  the effect of the catch handler; for `fetchUserData` the try block is kept
  as a separate `Except`-valued function to make the absorption explicit.
-/

namespace Auth

/-- The shape of the user payload returned by the identity endpoint:
the two name fields the code inspects (each possibly absent, i.e. JS
`undefined`) plus the unspecified further profile fields. -/
structure UserData where
  firstname : Option String
  lastname : Option String
  rest : List (String × String)
deriving DecidableEq, Repr

/-- JS truthiness of a possibly-absent string field: `undefined` and the
empty string are falsy, every other string is truthy. -/
def truthyStr : Option String → Bool
  | none => false
  | some s => !s.isEmpty

/-- Body of a successful `GET /user/me` JSON response: the destructured
`user` property, which may be absent (JS `undefined`). -/
structure MeBody where
  user : Option UserData
deriving DecidableEq, Repr

/-- A JSON value as the `token` property of the login response body may hold
it: absent, `null`, a string, an integer, or a boolean. -/
inductive JsVal
  | undef
  | jnull
  | jstr (s : String)
  | jnum (n : Int)
  | jbool (b : Bool)
deriving DecidableEq, Repr

/-- The string coercion JS applies in `localStorage.setItem('token', v)` and
in the template literal `Bearer ${v}`. -/
def jsToString : JsVal → String
  | .undef => "undefined"
  | .jnull => "null"
  | .jstr s => s
  | .jnum n => toString n
  | .jbool b => if b then "true" else "false"

/-- Body of a parsed `POST /login` JSON response: the `message` and `token`
properties, each possibly absent. -/
structure LoginBody where
  message : Option String
  token : JsVal
deriving DecidableEq, Repr

/-- Body of a parsed `POST /register` JSON response: the `message` property,
possibly absent. -/
structure RegBody where
  message : Option String
deriving DecidableEq, Repr

/-- Outcome of one `fetch` call, as the environment decides it: the transport
throws, or a response arrives with its `ok` flag and a body on which
`response.json()` either parses to `α` or throws (`none`). -/
inductive HttpResp (α : Type)
  | transportError
  | resp (ok : Bool) (body : Option α)
deriving DecidableEq, Repr

/-- The value a `login` / `register` call resolves with, as seen by the JS
caller: `null`, `undefined`, or a string. -/
inductive JsRet
  | null
  | undef
  | str (s : String)
deriving DecidableEq, Repr

/-- A network request as attempted by the controller: the endpoint path and
the `Authorization` header, when one is sent. -/
structure Request where
  endpoint : String
  auth : Option String
deriving DecidableEq, Repr

/-- The side effects of one operation, each in order of occurrence. -/
structure Effects where
  navs : List String
  reqs : List Request
  writes : List String
deriving DecidableEq, Repr

/-- The observable controller state: the React `user` state and the
`localStorage` entry under the key `token` (`none` when no entry exists). -/
structure State where
  user : Option UserData
  token : Option String
deriving DecidableEq, Repr

/-- JS truthiness of the value `localStorage.getItem('token')` returns:
`null` (no entry) and the empty string are falsy. -/
def tokenTruthy : Option String → Bool
  | none => false
  | some t => !t.isEmpty

/-- The try block of `fetchUserData` (AuthContext.jsx lines 36-63): read the
token; on a falsy token set `user` to null and return; otherwise fetch
`/user/me` with the bearer header. `Except.error` marks the paths where the
JS code throws (transport failure, or `response.json()` throwing), carrying
the requests attempted so far; `Except.ok` carries the new state and the
attempted requests. -/
def fetchUserDataTry (r : HttpResp MeBody) (st : State) :
    Except (List Request) (State × List Request) :=
  match st.token with
  | none => .ok ({ st with user := none }, [])
  | some tok =>
    if tok.isEmpty then
      .ok ({ st with user := none }, [])
    else
      let req : Request := ⟨"/user/me", some ("Bearer " ++ tok)⟩
      match r with
      | .transportError => .error [req]
      | .resp ok body =>
        if ok then
          match body with
          | none => .error [req]
          | some mb =>
            match mb.user with
            | some u =>
              if truthyStr u.firstname && truthyStr u.lastname then
                .ok ({ st with user := some u }, [req])
              else
                .ok ({ user := none, token := none }, [req])
            | none => .ok ({ user := none, token := none }, [req])
        else
          .ok ({ user := none, token := none }, [req])

/-- The whole of `fetchUserData` (AuthContext.jsx lines 36-69): the try
block, with the catch handler (`localStorage.removeItem('token');
setUser(null)`) absorbing every thrown error. Total by construction: it
never propagates an error to its caller. -/
def fetchUserData (r : HttpResp MeBody) (st : State) : State × List Request :=
  match fetchUserDataTry r st with
  | .ok res => res
  | .error reqs => ({ user := none, token := none }, reqs)

/-- The `checkAuth` closure run on mount (AuthContext.jsx lines 24-33): if
the stored token is truthy, resolve identity via `fetchUserData`; otherwise
set `user` to null without any network request. -/
def checkAuth (r : HttpResp MeBody) (st : State) : State × List Request :=
  if tokenTruthy st.token then
    fetchUserData r st
  else
    ({ st with user := none }, [])

/-- The `logout` function (AuthContext.jsx lines 76-80): remove the token,
set `user` to null, navigate to `/`. It is an ordinary synchronous function
(no awaits, no fetch) and returns `undefined`. -/
def logout (st : State) : State × Effects × JsRet :=
  (⟨none, none⟩, ⟨["/"], [], []⟩, .undef)

/-- The `login` function (AuthContext.jsx lines 90-140), translated branch
by branch. The one `try`/`catch` is embedded by giving every throwing path
(login-fetch transport error, `loginResponse.json()` throwing, user-fetch
transport error, `userResponse.json()` throwing) the catch handler's effect:
remove the token, set `user` to null, return the generic message. The
`username`/`password` arguments only form the request body and do not steer
the control flow. -/
def login (username password : String) (lr : HttpResp LoginBody)
    (mr : HttpResp MeBody) (st : State) : State × Effects × JsRet :=
  let loginReq : Request := ⟨"/login", none⟩
  match lr with
  | .transportError =>
    -- fetch threw: caught, token removed, user null, generic message
    (⟨none, none⟩, ⟨[], [loginReq], []⟩, .str "An error occurred during login")
  | .resp ok body =>
    match body with
    | none =>
      -- loginResponse.json() threw: caught, token removed, user null
      (⟨none, none⟩, ⟨[], [loginReq], []⟩, .str "An error occurred during login")
    | some lb =>
      if ok then
        -- localStorage.setItem('token', loginData.token): value coerced
        let tok := jsToString lb.token
        let meReq : Request := ⟨"/user/me", some ("Bearer " ++ tok)⟩
        match mr with
        | .transportError =>
          -- user fetch threw: caught, token removed, user null
          (⟨none, none⟩, ⟨[], [loginReq, meReq], [tok]⟩,
            .str "An error occurred during login")
        | .resp mok mbody =>
          if mok then
            match mbody with
            | none =>
              -- userResponse.json() threw: caught
              (⟨none, none⟩, ⟨[], [loginReq, meReq], [tok]⟩,
                .str "An error occurred during login")
            | some mb =>
              match mb.user with
              | some u =>
                if truthyStr u.firstname && truthyStr u.lastname then
                  ({ user := some u, token := some tok },
                    ⟨["/profile"], [loginReq, meReq], [tok]⟩, .null)
                else
                  (⟨none, none⟩, ⟨[], [loginReq, meReq], [tok]⟩,
                    .str "Invalid user data received")
              | none =>
                (⟨none, none⟩, ⟨[], [loginReq, meReq], [tok]⟩,
                  .str "Invalid user data received")
          else
            (⟨none, none⟩, ⟨[], [loginReq, meReq], [tok]⟩,
              .str "Failed to fetch user data")
      else
        -- non-2xx with a parsed body: return loginData.message, no state change
        (st, ⟨[], [loginReq], []⟩,
          match lb.message with
          | some m => .str m
          | none => .undef)

/-- The `register` function (AuthContext.jsx lines 149-170), translated
branch by branch. `response.json()` is awaited before the `ok` check, so an
unparseable body reaches the catch handler (which only returns the generic
message) even on a 2xx response. The function never touches `user` or the
stored token. -/
def registerUser (profileData : List (String × String)) (rr : HttpResp RegBody)
    (st : State) : State × Effects × JsRet :=
  let regReq : Request := ⟨"/register", none⟩
  match rr with
  | .transportError =>
    (st, ⟨[], [regReq], []⟩, .str "An error occurred during registration")
  | .resp ok body =>
    match body with
    | none =>
      -- response.json() threw: caught, generic message, no navigation
      (st, ⟨[], [regReq], []⟩, .str "An error occurred during registration")
    | some b =>
      if ok then
        (st, ⟨["/success"], [regReq], []⟩, .null)
      else
        (st, ⟨[], [regReq], []⟩,
          match b.message with
          | some m => .str m
          | none => .undef)

/-- One operation the UI can trigger on the controller, together with the
environment's responses to the network requests it may attempt. -/
inductive Op
  | startup (mr : HttpResp MeBody)
  | opLogin (u p : String) (lr : HttpResp LoginBody) (mr : HttpResp MeBody)
  | opLogout
  | opRegister (d : List (String × String)) (rr : HttpResp RegBody)

/-- The state transition of one operation (effects and return values
discarded). -/
def step (st : State) (op : Op) : State :=
  match op with
  | .startup mr => (checkAuth mr st).1
  | .opLogin u p lr mr => (login u p lr mr st).1
  | .opLogout => (logout st).1
  | .opRegister d rr => (registerUser d rr st).1

/-- Run a sequence of operations from a state. -/
def run (st : State) (ops : List Op) : State :=
  ops.foldl step st

/-- The validation the code applies before installing a user: the stored
`user` is null, or both name fields are present and non-empty. -/
def userValidated : Option UserData → Bool
  | none => true
  | some u => truthyStr u.firstname && truthyStr u.lastname

/-- A `/user/me` payload the code rejects: the `user` property absent, or a
name field missing or empty. -/
def invalidPayload (mb : MeBody) : Bool :=
  match mb.user with
  | none => true
  | some u => !(truthyStr u.firstname && truthyStr u.lastname)

/-- The result taxonomy claim C7 asserts for `login`/`register` returns:
`null`, or a non-empty string. -/
def nullOrNonemptyStr : JsRet → Bool
  | .null => true
  | .undef => false
  | .str s => !s.isEmpty

lemma fetchUserData_user_validated (r : HttpResp MeBody) (st : State) :
    userValidated (fetchUserData r st).1.user = true := by
  obtain ⟨u0, t0⟩ := st
  cases t0 with
  | none => simp [fetchUserData, fetchUserDataTry, userValidated]
  | some tok =>
    cases he : tok.isEmpty with
    | true => simp [fetchUserData, fetchUserDataTry, he, userValidated]
    | false =>
      cases r with
      | transportError => simp [fetchUserData, fetchUserDataTry, he, userValidated]
      | resp ok body =>
        cases ok with
        | false => simp [fetchUserData, fetchUserDataTry, he, userValidated]
        | true =>
          cases body with
          | none => simp [fetchUserData, fetchUserDataTry, he, userValidated]
          | some mb =>
            obtain ⟨mu⟩ := mb
            cases mu with
            | none => simp [fetchUserData, fetchUserDataTry, he, userValidated]
            | some uu =>
              cases hb : (truthyStr uu.firstname && truthyStr uu.lastname) with
              | true =>
                simp [fetchUserData, fetchUserDataTry, he, hb, userValidated]
              | false =>
                simp [fetchUserData, fetchUserDataTry, he, hb, userValidated]

lemma login_user_validated (u p : String) (lr : HttpResp LoginBody)
    (mr : HttpResp MeBody) (st : State) (h : userValidated st.user = true) :
    userValidated (login u p lr mr st).1.user = true := by
  cases lr with
  | transportError => simp [login, userValidated]
  | resp ok body =>
    cases body with
    | none => simp [login, userValidated]
    | some lb =>
      cases ok with
      | false => simpa [login] using h
      | true =>
        cases mr with
        | transportError => simp [login, userValidated]
        | resp mok mbody =>
          cases mok with
          | false => simp [login, userValidated]
          | true =>
            cases mbody with
            | none => simp [login, userValidated]
            | some mb =>
              obtain ⟨mu⟩ := mb
              cases mu with
              | none => simp [login, userValidated]
              | some uu =>
                cases hb : (truthyStr uu.firstname && truthyStr uu.lastname) with
                | true => simp [login, hb, userValidated]
                | false => simp [login, hb, userValidated]

lemma step_preserves_userValidated (st : State) (op : Op)
    (h : userValidated st.user = true) :
    userValidated (step st op).user = true := by
  cases op with
  | startup mr =>
    show userValidated (checkAuth mr st).1.user = true
    unfold checkAuth
    cases ht : tokenTruthy st.token with
    | true => simpa [ht] using fetchUserData_user_validated mr st
    | false => simp [ht, userValidated]
  | opLogin u p lr mr => exact login_user_validated u p lr mr st h
  | opLogout => simp [step, logout, userValidated]
  | opRegister d rr =>
    show userValidated (registerUser d rr st).1.user = true
    cases rr with
    | transportError => simpa [registerUser] using h
    | resp ok body =>
      cases body with
      | none => simpa [registerUser] using h
      | some b => cases ok <;> simpa [registerUser] using h

lemma run_preserves_userValidated (st : State) (ops : List Op)
    (h : userValidated st.user = true) :
    userValidated (run st ops).user = true := by
  induction ops generalizing st with
  | nil => simpa [run] using h
  | cons op rest ih =>
    show userValidated (run (step st op) rest).user = true
    exact ih (step st op) (step_preserves_userValidated st op h)

/-- C1: over every sequence of operations (startup resolution, login, logout,
register) started from a null user and any stored token, and every response
of the external services, the controller's `user` state is always null or a
record whose firstname and lastname are both present and non-empty; moreover,
whenever an identity response carries a missing or incomplete user payload —
in `fetchUserData` with a truthy stored credential, or in the identity step
of a 2xx login — the stored credential is discarded and `user` is set to
null. -/
theorem c1_user_state_always_validated :
    (∀ (tok : Option String) (ops : List Op),
      userValidated (run ⟨none, tok⟩ ops).user = true) ∧
    (∀ (mb : MeBody) (st : State) (t : String), st.token = some t →
      t.isEmpty = false → invalidPayload mb = true →
      (fetchUserData (.resp true (some mb)) st).1 = ⟨none, none⟩) ∧
    (∀ (u p : String) (lb : LoginBody) (mb : MeBody) (st : State),
      invalidPayload mb = true →
      (login u p (.resp true (some lb)) (.resp true (some mb)) st).1
        = ⟨none, none⟩) := by
  refine ⟨fun tok ops => run_preserves_userValidated ⟨none, tok⟩ ops rfl, ?_, ?_⟩
  · intro mb st t ht he hinv
    obtain ⟨u0, t0⟩ := st
    simp only [State.mk.injEq] at ht
    subst ht
    obtain ⟨mu⟩ := mb
    cases mu with
    | none => simp [fetchUserData, fetchUserDataTry, he]
    | some uu =>
      have hb : (truthyStr uu.firstname && truthyStr uu.lastname) = false := by
        cases hx : truthyStr uu.firstname <;> cases hy : truthyStr uu.lastname <;>
          simp [invalidPayload, hx, hy] at hinv ⊢
      simp [fetchUserData, fetchUserDataTry, he, hb]
  · intro u p lb mb st hinv
    obtain ⟨mu⟩ := mb
    cases mu with
    | none => simp [login]
    | some uu =>
      have hb : (truthyStr uu.firstname && truthyStr uu.lastname) = false := by
        cases hx : truthyStr uu.firstname <;> cases hy : truthyStr uu.lastname <;>
          simp [invalidPayload, hx, hy] at hinv ⊢
      simp [login, hb]

/-- Witness for C1: the concrete payload `{user: {firstname: "Ada"}}` (no
lastname) is invalid, and resolving it with the stored token `"tok"` clears
both the user and the credential. -/
theorem c1_user_state_always_validated_witness :
    invalidPayload ⟨some ⟨some "Ada", none, []⟩⟩ = true ∧
    (fetchUserData (.resp true (some ⟨some ⟨some "Ada", none, []⟩⟩))
      ⟨none, some "tok"⟩).1 = ⟨none, none⟩ :=
  ⟨by decide,
    c1_user_state_always_validated.2.1 ⟨some ⟨some "Ada", none, []⟩⟩
      ⟨none, some "tok"⟩ "tok" rfl (by decide) (by decide)⟩

/-- C4: startup resolution (`checkAuth`). With no truthy stored credential,
`user` is null and no identity request is made; with a stored non-empty
credential and a 2xx identity response whose payload has non-empty names,
`user` equals that payload; when the identity service rejects the credential
(transport error, non-2xx, unparseable body, or missing/invalid payload),
`user` is null and the credential is removed from storage. The code treats
an empty stored string as absent (JS falsiness of `""`). -/
theorem c4_startup_resolution (mr : HttpResp MeBody) (st : State) :
    (tokenTruthy st.token = false →
      checkAuth mr st = ({ st with user := none }, [])) ∧
    (∀ t ud, st.token = some t → t.isEmpty = false →
      mr = .resp true (some ⟨some ud⟩) →
      truthyStr ud.firstname = true → truthyStr ud.lastname = true →
      (checkAuth mr st).1.user = some ud) ∧
    (∀ t, st.token = some t → t.isEmpty = false →
      (mr = .transportError ∨ (∃ b, mr = .resp false b) ∨
        mr = .resp true none ∨
        (∃ mb, mr = .resp true (some mb) ∧ invalidPayload mb = true)) →
      (checkAuth mr st).1 = ⟨none, none⟩) := by
  obtain ⟨u0, t0⟩ := st
  refine ⟨fun hf => by simp [checkAuth, hf], ?_, ?_⟩
  · intro t ud ht he hmr hf hl
    simp only [State.mk.injEq] at ht
    subst ht hmr
    simp [checkAuth, tokenTruthy, fetchUserData, fetchUserDataTry, he, hf, hl]
  · intro t ht he hrej
    simp only [State.mk.injEq] at ht
    subst ht
    rcases hrej with hmr | ⟨b, hmr⟩ | hmr | ⟨mb, hmr, hinv⟩
    · subst hmr
      simp [checkAuth, tokenTruthy, fetchUserData, fetchUserDataTry, he]
    · subst hmr
      simp [checkAuth, tokenTruthy, fetchUserData, fetchUserDataTry, he]
    · subst hmr
      simp [checkAuth, tokenTruthy, fetchUserData, fetchUserDataTry, he]
    · subst hmr
      obtain ⟨mu⟩ := mb
      cases mu with
      | none => simp [checkAuth, tokenTruthy, fetchUserData, fetchUserDataTry, he]
      | some uu =>
        have hb : (truthyStr uu.firstname && truthyStr uu.lastname) = false := by
          cases hx : truthyStr uu.firstname <;> cases hy : truthyStr uu.lastname <;>
            simp [invalidPayload, hx, hy] at hinv ⊢
        simp [checkAuth, tokenTruthy, fetchUserData, fetchUserDataTry, he, hb]

/-- Witness for C4: with the stored credential `"tok"` and the identity
service answering 2xx with `{firstname: "Ada", lastname: "Lovelace"}`,
startup resolution installs exactly that payload. -/
theorem c4_startup_resolution_witness :
    ("tok" : String).isEmpty = false ∧
    (checkAuth (.resp true (some ⟨some ⟨some "Ada", some "Lovelace", []⟩⟩))
      ⟨none, some "tok"⟩).1.user = some ⟨some "Ada", some "Lovelace", []⟩ :=
  ⟨by decide,
    (c4_startup_resolution
        (.resp true (some ⟨some ⟨some "Ada", some "Lovelace", []⟩⟩))
        ⟨none, some "tok"⟩).2.1 "tok" ⟨some "Ada", some "Lovelace", []⟩
      rfl (by decide) rfl (by decide) (by decide)⟩

/-- C5: `logout` from every prior state removes the credential, sets `user`
to null, navigates exactly once to the landing view `/`, writes nothing
else, and makes no network request; the transition is a plain synchronous
function of the state. -/
theorem c5_logout (st : State) :
    logout st = (⟨none, none⟩, ⟨["/"], [], []⟩, .undef) := rfl

/-- C6: identity resolution (`fetchUserData`) terminates normally on every
outcome — it is a total function even though its try block
(`fetchUserDataTry`) throws on transport errors and parse failures, because
the catch handler absorbs every thrown error. With no truthy stored
credential it only sets `user` to null; on a 2xx response with a valid
payload it installs that payload; on every failure that reached the network
(transport error, non-2xx, unparseable body, missing/invalid name fields) it
sets `user` to null and clears the stored credential. -/
theorem c6_fetch_user_data_outcomes (r : HttpResp MeBody) (st : State) :
    (tokenTruthy st.token = false →
      fetchUserData r st = ({ st with user := none }, [])) ∧
    (∀ t, st.token = some t → t.isEmpty = false →
      ((∀ ud, r = .resp true (some ⟨some ud⟩) →
          truthyStr ud.firstname = true → truthyStr ud.lastname = true →
          fetchUserData r st =
            ({ st with user := some ud },
              [⟨"/user/me", some ("Bearer " ++ t)⟩])) ∧
        ((r = .transportError ∨ (∃ b, r = .resp false b) ∨
            r = .resp true none ∨
            (∃ mb, r = .resp true (some mb) ∧ invalidPayload mb = true)) →
          fetchUserData r st =
            (⟨none, none⟩, [⟨"/user/me", some ("Bearer " ++ t)⟩])))) := by
  obtain ⟨u0, t0⟩ := st
  constructor
  · intro hf
    cases t0 with
    | none => simp [fetchUserData, fetchUserDataTry]
    | some tok =>
      have he : tok.isEmpty = true := by simpa [tokenTruthy] using hf
      simp [fetchUserData, fetchUserDataTry, he]
  · intro t ht he
    simp only [State.mk.injEq] at ht
    subst ht
    constructor
    · intro ud hr hfn hln
      subst hr
      simp [fetchUserData, fetchUserDataTry, he, hfn, hln]
    · intro hrej
      rcases hrej with hr | ⟨b, hr⟩ | hr | ⟨mb, hr, hinv⟩
      · subst hr
        simp [fetchUserData, fetchUserDataTry, he]
      · subst hr
        simp [fetchUserData, fetchUserDataTry, he]
      · subst hr
        simp [fetchUserData, fetchUserDataTry, he]
      · subst hr
        obtain ⟨mu⟩ := mb
        cases mu with
        | none => simp [fetchUserData, fetchUserDataTry, he]
        | some uu =>
          have hb : (truthyStr uu.firstname && truthyStr uu.lastname)
              = false := by
            cases hx : truthyStr uu.firstname <;>
              cases hy : truthyStr uu.lastname <;>
                simp [invalidPayload, hx, hy] at hinv ⊢
          simp [fetchUserData, fetchUserDataTry, he, hb]

/-- Witness for C6: transport failure against the stored credential `"tok"`
resolves to a null user with the credential cleared, after one attempted
identity request. -/
theorem c6_fetch_user_data_outcomes_witness :
    ("tok" : String).isEmpty = false ∧
    fetchUserData .transportError ⟨some ⟨some "Ada", some "Lovelace", []⟩, some "tok"⟩
      = (⟨none, none⟩, [⟨"/user/me", some ("Bearer " ++ "tok")⟩]) :=
  ⟨by decide,
    ((c6_fetch_user_data_outcomes .transportError
        ⟨some ⟨some "Ada", some "Lovelace", []⟩, some "tok"⟩).2 "tok" rfl
      (by decide)).2 (Or.inl rfl)⟩

/-- C10: `login` does not validate the token of a 2xx authentication
response: whatever JSON value the `token` field holds — absent, null, the
empty string, a number, a boolean, or any string — its JS string coercion is
written to the session store by `setItem` and then sent as the bearer
credential of the identity request, which is always attempted after the
login request. -/
theorem c10_token_stored_verbatim (u p : String) (lb : LoginBody)
    (mr : HttpResp MeBody) (st : State) :
    (login u p (.resp true (some lb)) mr st).2.1.writes
      = [jsToString lb.token] ∧
    (login u p (.resp true (some lb)) mr st).2.1.reqs
      = [⟨"/login", none⟩,
         ⟨"/user/me", some ("Bearer " ++ jsToString lb.token)⟩] := by
  cases mr with
  | transportError => exact ⟨rfl, rfl⟩
  | resp mok mbody =>
    cases mok with
    | false => exact ⟨rfl, rfl⟩
    | true =>
      cases mbody with
      | none => exact ⟨rfl, rfl⟩
      | some mb =>
        obtain ⟨mu⟩ := mb
        cases mu with
        | none => exact ⟨rfl, rfl⟩
        | some uu =>
          cases hb : (truthyStr uu.firstname && truthyStr uu.lastname) with
          | true => simp [login, hb]
          | false => simp [login, hb]

/-- C2 (amended): when the authentication service answers 2xx with a body
whose token field is the string `t` and the identity fetch answers 2xx with
a payload with non-empty names, `login` installs exactly that payload,
leaves `t` stored as the credential, navigates exactly once to `/profile`,
and returns null; and a navigation occurs only when the authentication
response is 2xx with a parseable body and the identity response is 2xx with
a valid payload — the presence of the token field itself is not checked by
the code. -/
theorem c2_login_full_success :
    (∀ (u p t : String) (lb : LoginBody) (ud : UserData) (st : State),
      lb.token = .jstr t →
      truthyStr ud.firstname = true → truthyStr ud.lastname = true →
      login u p (.resp true (some lb)) (.resp true (some ⟨some ud⟩)) st
        = ({ user := some ud, token := some t },
            ⟨["/profile"],
              [⟨"/login", none⟩, ⟨"/user/me", some ("Bearer " ++ t)⟩],
              [t]⟩,
            .null)) ∧
    (∀ (u p : String) (lr : HttpResp LoginBody) (mr : HttpResp MeBody)
        (st : State),
      (login u p lr mr st).2.1.navs ≠ [] →
      ∃ (lb : LoginBody) (ud : UserData),
        lr = .resp true (some lb) ∧ mr = .resp true (some ⟨some ud⟩) ∧
        truthyStr ud.firstname = true ∧ truthyStr ud.lastname = true ∧
        (login u p lr mr st).2.1.navs = ["/profile"]) := by
  constructor
  · intro u p t lb ud st ht hfn hln
    obtain ⟨msg, tokv⟩ := lb
    simp only [LoginBody.mk.injEq] at ht
    subst ht
    simp [login, hfn, hln, jsToString]
  · intro u p lr mr st hnav
    cases lr with
    | transportError => simp [login] at hnav
    | resp ok body =>
      cases body with
      | none => simp [login] at hnav
      | some lb =>
        cases ok with
        | false => simp [login] at hnav
        | true =>
          cases mr with
          | transportError => simp [login] at hnav
          | resp mok mbody =>
            cases mok with
            | false => simp [login] at hnav
            | true =>
              cases mbody with
              | none => simp [login] at hnav
              | some mb =>
                obtain ⟨mu⟩ := mb
                cases mu with
                | none => simp [login] at hnav
                | some uu =>
                  cases hb : (truthyStr uu.firstname && truthyStr uu.lastname) with
                  | false => simp [login, hb] at hnav
                  | true =>
                    have hab : truthyStr uu.firstname = true ∧
                        truthyStr uu.lastname = true := by simpa using hb
                    exact ⟨lb, uu, rfl, rfl, hab.1, hab.2, by simp [login, hb]⟩

/-- Witness for C2: the concrete full-success run with token `"tok"` and the
Ada Lovelace payload. -/
theorem c2_login_full_success_witness :
    truthyStr (some "Ada") = true ∧
    login "u" "p" (.resp true (some ⟨none, .jstr "tok"⟩))
        (.resp true (some ⟨some ⟨some "Ada", some "Lovelace", []⟩⟩)) ⟨none, none⟩
      = ({ user := some ⟨some "Ada", some "Lovelace", []⟩, token := some "tok" },
          ⟨["/profile"],
            [⟨"/login", none⟩, ⟨"/user/me", some ("Bearer " ++ "tok")⟩],
            ["tok"]⟩,
          .null) :=
  ⟨by decide,
    c2_login_full_success.1 "u" "p" "tok" ⟨none, .jstr "tok"⟩
      ⟨some "Ada", some "Lovelace", []⟩ ⟨none, none⟩ rfl (by decide) (by decide)⟩

/-- Counterexample to C2 as stated: a 2xx authentication response whose body
has no token field at all (`token` is `undefined`) is not the claimed
full-success case, yet `login` still navigates to `/profile` when the
identity fetch (sent with `Bearer undefined`) returns a valid payload. -/
theorem c2_nav_without_token_counterexample :
    (⟨none, .undef⟩ : LoginBody).token = .undef ∧
    (login "u" "p" (.resp true (some ⟨none, .undef⟩))
        (.resp true (some ⟨some ⟨some "Ada", some "Lovelace", []⟩⟩))
        ⟨none, none⟩).2.1.navs = ["/profile"] := by decide

/-- C3 (amended): when the authentication service answers non-2xx with a
parseable body, `login` leaves the state (user and stored credential)
unchanged, does not navigate, and returns the body's message value verbatim
(JS `undefined` when the field is absent); when the transport fails, or the
response body cannot be parsed, the catch handler returns the generic
failure string and clears both the stored credential and the user — the
state is left unchanged only if it was already cleared. -/
theorem c3_login_failure_paths (u p : String) (mr : HttpResp MeBody)
    (st : State) :
    (∀ lb : LoginBody,
      (login u p (.resp false (some lb)) mr st).1 = st ∧
      (login u p (.resp false (some lb)) mr st).2.1.navs = [] ∧
      (login u p (.resp false (some lb)) mr st).2.2
        = (match lb.message with
           | some m => JsRet.str m
           | none => JsRet.undef)) ∧
    ((login u p .transportError mr st).1 = ⟨none, none⟩ ∧
      (login u p .transportError mr st).2.2
        = .str "An error occurred during login") ∧
    (∀ ok : Bool,
      (login u p (.resp ok none) mr st).1 = ⟨none, none⟩ ∧
      (login u p (.resp ok none) mr st).2.2
        = .str "An error occurred during login") := by
  refine ⟨fun lb => ⟨rfl, rfl, rfl⟩, ⟨rfl, rfl⟩, fun ok => ?_⟩
  cases ok <;> exact ⟨rfl, rfl⟩

/-- Counterexample to C3 as stated: with an authenticated prior state (user
installed, credential `"tok"` stored), a transport failure of the login
request does not leave the session state unchanged — the catch handler
clears both the user and the stored credential. -/
theorem c3_transport_clears_state_counterexample :
    (login "u" "p" .transportError .transportError
        ⟨some ⟨some "Ada", some "Lovelace", []⟩, some "tok"⟩).1
      ≠ ⟨some ⟨some "Ada", some "Lovelace", []⟩, some "tok"⟩ := by decide

/-- C7 (amended): every value `login` or `register` resolves with is null or
a non-empty string, except on a non-2xx response with a parseable body,
where the body's message field is returned verbatim — so the result is then
`undefined` when the field is absent, and may be the empty string. -/
theorem c7_return_value_taxonomy :
    (∀ (u p : String) (lr : HttpResp LoginBody) (mr : HttpResp MeBody)
        (st : State),
      nullOrNonemptyStr (login u p lr mr st).2.2 = true ∨
        ∃ lb : LoginBody, lr = .resp false (some lb) ∧
          (login u p lr mr st).2.2
            = (match lb.message with
               | some m => JsRet.str m
               | none => JsRet.undef)) ∧
    (∀ (d : List (String × String)) (rr : HttpResp RegBody) (st : State),
      nullOrNonemptyStr (registerUser d rr st).2.2 = true ∨
        ∃ b : RegBody, rr = .resp false (some b) ∧
          (registerUser d rr st).2.2
            = (match b.message with
               | some m => JsRet.str m
               | none => JsRet.undef)) := by
  constructor
  · intro u p lr mr st
    cases lr with
    | transportError => exact Or.inl rfl
    | resp ok body =>
      cases body with
      | none => cases ok <;> exact Or.inl rfl
      | some lb =>
        cases ok with
        | false => exact Or.inr ⟨lb, rfl, rfl⟩
        | true =>
          cases mr with
          | transportError => exact Or.inl rfl
          | resp mok mbody =>
            cases mok with
            | false => exact Or.inl rfl
            | true =>
              cases mbody with
              | none => exact Or.inl rfl
              | some mb =>
                obtain ⟨mu⟩ := mb
                cases mu with
                | none => exact Or.inl rfl
                | some uu =>
                  cases hb : (truthyStr uu.firstname && truthyStr uu.lastname) with
                  | true => exact Or.inl (by simp [login, hb, nullOrNonemptyStr])
                  | false =>
                    have hs : ("Invalid user data received".isEmpty) = false := by
                      decide
                    exact Or.inl (by simp [login, hb, nullOrNonemptyStr, hs])
  · intro d rr st
    cases rr with
    | transportError => exact Or.inl rfl
    | resp ok body =>
      cases body with
      | none => cases ok <;> exact Or.inl rfl
      | some b =>
        cases ok with
        | false => exact Or.inr ⟨b, rfl, rfl⟩
        | true => exact Or.inl rfl

/-- Counterexample to C7 as stated: a non-2xx registration response whose
parsed body lacks a message field makes `register` return JS `undefined`,
which is neither null nor a non-empty string. -/
theorem c7_undefined_return_counterexample :
    nullOrNonemptyStr
        (registerUser [] (.resp false (some ⟨none⟩)) ⟨none, none⟩).2.2
      = false ∧
    (registerUser [] (.resp false (some ⟨none⟩)) ⟨none, none⟩).2.2
      = .undef := by decide

/-- C8 (amended): `register` never touches the user state or the stored
credential; on a 2xx response with a parseable body it navigates exactly
once to `/success` and returns null; on a non-2xx response with a parseable
body containing a message it returns that message and does not navigate; on
a body that cannot be parsed (`response.json()` is awaited before the ok
check, so this includes 2xx responses) it returns the generic failure string
and does not navigate. -/
theorem c8_register_behavior (d : List (String × String))
    (rr : HttpResp RegBody) (st : State) :
    (registerUser d rr st).1 = st ∧
    (∀ b : RegBody, rr = .resp true (some b) →
      (registerUser d rr st).2.1.navs = ["/success"] ∧
      (registerUser d rr st).2.2 = .null) ∧
    (∀ (b : RegBody) (m : String), rr = .resp false (some b) →
      b.message = some m →
      (registerUser d rr st).2.2 = .str m ∧
      (registerUser d rr st).2.1.navs = []) ∧
    (∀ ok : Bool, rr = .resp ok none →
      (registerUser d rr st).2.2 = .str "An error occurred during registration" ∧
      (registerUser d rr st).2.1.navs = []) := by
  refine ⟨?_, ?_, ?_, ?_⟩
  · cases rr with
    | transportError => rfl
    | resp ok body =>
      cases body with
      | none => cases ok <;> rfl
      | some b => cases ok <;> rfl
  · intro b hrr
    subst hrr
    exact ⟨rfl, rfl⟩
  · intro b m hrr hm
    subst hrr
    simp [registerUser, hm]
  · intro ok hrr
    subst hrr
    cases ok <;> exact ⟨rfl, rfl⟩

/-- Witness for C8: registration against a 2xx (HTTP 201) response with a
parsed body navigates once to `/success` and returns null. -/
theorem c8_register_behavior_witness :
    (registerUser [] (.resp true (some ⟨none⟩)) ⟨none, none⟩).2.1.navs
      = ["/success"] ∧
    (registerUser [] (.resp true (some ⟨none⟩)) ⟨none, none⟩).2.2 = .null :=
  (c8_register_behavior [] (.resp true (some ⟨none⟩)) ⟨none, none⟩).2.1
    ⟨none⟩ rfl

/-- Counterexample to C8 as stated: a 2xx response whose body cannot be
parsed does not navigate and does not return null — `response.json()` is
awaited before the ok check, so the catch handler returns the generic
failure string instead. -/
theorem c8_ok_unparseable_counterexample :
    (registerUser [] (.resp true none) ⟨none, none⟩).2.1.navs = [] ∧
    (registerUser [] (.resp true none) ⟨none, none⟩).2.2
      = .str "An error occurred during registration" := by decide

/-- C9 (amended): provided the persisted token string is non-empty (truthy),
the identity-resolution step inside a 2xx `login` has exactly the same
effect on the user state and the stored credential as `fetchUserData` run
with that same credential stored, and whenever that resolution fails (user
null) `login` additionally returns a non-empty error string. With an empty
persisted token the two diverge: `login` still performs the identity fetch,
while `fetchUserData` treats the falsy token as absent and skips it. -/
theorem c9_login_identity_refines_fetch (u p : String) (lb : LoginBody)
    (mr : HttpResp MeBody) (st : State)
    (h : (jsToString lb.token).isEmpty = false) :
    (login u p (.resp true (some lb)) mr st).1
      = (fetchUserData mr { st with token := some (jsToString lb.token) }).1 ∧
    ((fetchUserData mr { st with token := some (jsToString lb.token) }).1.user
        = none →
      ∃ s, (login u p (.resp true (some lb)) mr st).2.2 = .str s ∧
        s.isEmpty = false) := by
  cases mr with
  | transportError =>
    refine ⟨by simp [login, fetchUserData, fetchUserDataTry, h], ?_⟩
    intro hnone
    exact ⟨"An error occurred during login", by simp [login], by decide⟩
  | resp mok mbody =>
    cases mok with
    | false =>
      refine ⟨by simp [login, fetchUserData, fetchUserDataTry, h], ?_⟩
      intro hnone
      exact ⟨"Failed to fetch user data", by simp [login], by decide⟩
    | true =>
      cases mbody with
      | none =>
        refine ⟨by simp [login, fetchUserData, fetchUserDataTry, h], ?_⟩
        intro hnone
        exact ⟨"An error occurred during login", by simp [login], by decide⟩
      | some mb =>
        obtain ⟨mu⟩ := mb
        cases mu with
        | none =>
          refine ⟨by simp [login, fetchUserData, fetchUserDataTry, h], ?_⟩
          intro hnone
          exact ⟨"Invalid user data received", by simp [login], by decide⟩
        | some uu =>
          cases hb : (truthyStr uu.firstname && truthyStr uu.lastname) with
          | true =>
            refine ⟨by simp [login, fetchUserData, fetchUserDataTry, h, hb], ?_⟩
            intro hnone
            simp [fetchUserData, fetchUserDataTry, h, hb] at hnone
          | false =>
            refine ⟨by simp [login, fetchUserData, fetchUserDataTry, h, hb], ?_⟩
            intro hnone
            exact ⟨"Invalid user data received", by simp [login, hb], by decide⟩

/-- Witness for C9: with the persisted token `"tok"` and a non-2xx identity
response, the resolution inside `login` fails exactly as `fetchUserData`
does, and `login` returns a non-empty error string. -/
theorem c9_login_identity_refines_fetch_witness :
    (jsToString (.jstr "tok")).isEmpty = false ∧
    ∃ s, (login "u" "p" (.resp true (some ⟨none, .jstr "tok"⟩))
        (.resp false none) ⟨none, none⟩).2.2 = .str s ∧ s.isEmpty = false :=
  ⟨by decide,
    (c9_login_identity_refines_fetch "u" "p" ⟨none, .jstr "tok"⟩
      (.resp false none) ⟨none, none⟩ (by decide)).2 (by decide)⟩

/-- Counterexample to C9 as stated: when the authentication service returns
the empty-string token, `login` still runs the identity fetch and installs
the valid payload, whereas `fetchUserData` with that same stored credential
treats the falsy empty token as absent, skips the network, and leaves the
user null — the two effects differ. -/
theorem c9_empty_token_counterexample :
    (login "u" "p" (.resp true (some ⟨none, .jstr ""⟩))
        (.resp true (some ⟨some ⟨some "Ada", some "Lovelace", []⟩⟩))
        ⟨none, none⟩).1
      ≠ (fetchUserData
          (.resp true (some ⟨some ⟨some "Ada", some "Lovelace", []⟩⟩))
          { user := none, token := some (jsToString (.jstr "")) }).1 := by decide

end Auth
